import Mathlib

/-!
Verification development for the avulsion stratigraphic-modeling notebook
(`notebooks/avulsion_stratigraphic_modeling.ipynb`).

The notebook is a linear analysis script: it loads two channel-centerline
shapefiles, resamples and smooths them, builds meanderpy channel and
channel-belt objects, migrates them, exports the final centerlines as
shapefiles, builds 3-D stratigraphic volumes and renders them with
stratigraph/mayavi.  The only in-repository numeric function is
`generate_z_coordinates_with_constant`.

Numbers that the Python code manipulates (coordinates, UTM offsets, the
z-ramp arithmetic) are embedded as rationals `ℚ`; Python-level failure
(unbound local on return, division by zero) is embedded as `Option`.  The
script structure (statement order, call sites, argument-passing modes, file
reads) is embedded as explicit syntactic models transcribed cell by cell
from the notebook.
-/

namespace Avulsion

/-- Embedding of the Python clamp `max(min(Z, upper_bound), lower_bound)`
appearing in the loop body of `generate_z_coordinates_with_constant`. -/
def clampPy (z upper_bound lower_bound : ℚ) : ℚ :=
  max (min z upper_bound) lower_bound

/-- Shallow embedding of the notebook function

```python
def generate_z_coordinates_with_constant(x_coordinates, y_coordinates,
        constant_values_count, lower_bound, upper_bound):
    z_coordinates = []
    z_coordinates.extend([upper_bound] * min(constant_values_count, len(x_coordinates)))
    for i in range(constant_values_count, len(x_coordinates)):
        Z = upper_bound - (i - constant_values_count) * \
            ((upper_bound - lower_bound) / (len(x_coordinates) - constant_values_count - 1))
        Z = max(min(Z, upper_bound), lower_bound)
        z_coordinates.append(Z)
        z_coords = np.asarray(z_coordinates)
    return z_coords
```

`y_coordinates` is accepted but never used, exactly as in the source.  The
local `z_coords` is assigned only inside the loop body, so when the loop
range `range(constant_values_count, len(x_coordinates))` is empty the
`return` raises UnboundLocalError: embedded as `none`.  When the loop does
run but the divisor `len(x_coordinates) - constant_values_count - 1` is
zero, the ramp expression divides by zero on its first iteration: embedded
as `none`.  Otherwise the returned array is the constant upper-bound
run of length `min(constant_values_count, len(x_coordinates))` followed by
the clamped linear ramp, with loop index `i = constant_values_count + j`. -/
def generate_z_coordinates_with_constant (x_coordinates y_coordinates : List ℚ)
    (constant_values_count : ℕ) (lower_bound upper_bound : ℚ) : Option (List ℚ) :=
  let n := x_coordinates.length
  let constPart := List.replicate (min constant_values_count n) upper_bound
  if constant_values_count < n then
    if n = constant_values_count + 1 then
      none
    else
      some (constPart ++ (List.range (n - constant_values_count)).map (fun (j : ℕ) =>
        clampPy
          (upper_bound - (j : ℚ) *
            ((upper_bound - lower_bound) /
              ((n : ℚ) - (constant_values_count : ℚ) - 1)))
          upper_bound lower_bound))
  else none

/-!
## Syntactic model of the notebook script

Each Python statement of the notebook is transcribed, in source order, as a
`PyStmt`.  An assignment records its target and (when its right-hand side is
a call) the callee; a bare expression statement records the callee; a `for`
loop records the callees appearing in its body.  The constructors
`tryExcept` (a `try`/`except` block) and `spawnThread` (starting a thread or
task) are present in the statement language so that their absence from the
transcribed program is a checkable statement, not one true by construction
of the type.
-/

inductive PyStmt where
  | importLib (module : String)
  | assign (target : String) (callee : Option String)
  | exprCall (callee : String)
  | funcDef (fname : String)
  | forLoop (bodyCallees : List String)
  | tryExcept (bodyCallees handlerCallees : List String)
  | spawnThread (callee : String)
deriving DecidableEq

def stmtIsTryExcept : PyStmt → Bool
  | .tryExcept _ _ => true
  | _ => false

def stmtIsSpawn : PyStmt → Bool
  | .spawnThread _ => true
  | _ => false

/-- The callees statically contained in one statement. -/
def calleesOf : PyStmt → List String
  | .importLib _ => []
  | .assign _ none => []
  | .assign _ (some c) => [c]
  | .exprCall c => [c]
  | .funcDef _ => []
  | .forLoop body => body
  | .tryExcept body handler => body ++ handler
  | .spawnThread c => [c]

/-- All callees of a statement list, in source order. -/
def calledNames : List PyStmt → List String
  | [] => []
  | s :: rest => calleesOf s ++ calledNames rest

/-- The notebook, statement by statement and cell by cell, in execution
order.  (`#pip install ...` in the first code cell is commented out, and
`%matplotlib qt` is an IPython magic, not a Python statement; both are
omitted.) -/
def cellImports : List PyStmt := [
  .importLib "meanderpy", .importLib "matplotlib.pyplot", .importLib "numpy",
  .importLib "pandas", .importLib "scipy", .importLib "blockdiagram",
  .importLib "stratigraph", .importLib "geopandas", .importLib "shapely.geometry"]

/-- Cell: load t1 centerline data and prepare them for meanderpy. -/
def cellLoadT1 : List PyStmt := [
  .assign "centerline_dir" none,
  .assign "t1_shp" (some "gpd.read_file"),
  .assign "line" (some "pd.Series.iloc"),
  .assign "x, y" (some "line.xy"),
  .assign "z" (some "np.ones_like"),
  .assign "x, y, z" (some "mp.resample_centerline"),
  .assign "x" (some "np.flip"),
  .assign "y" (some "np.flip"),
  .assign "x" none,                        -- x = x - 560000
  .assign "y" none,                        -- y = y - 4300000
  .assign "window_size" none,
  .assign "order" none,
  .assign "x_smooth" (some "sp.signal.savgol_filter"),
  .assign "y_smooth" (some "sp.signal.savgol_filter"),
  .assign "x" none,
  .assign "y" none]

/-- Cell: model parameters. -/
def cellParams : List PyStmt := [
  .assign "W" none, .assign "D" none, .assign "pad" none, .assign "deltas" none,
  .assign "nit" none, .assign "depths" (some "np.ones"), .assign "Cfs" (some "np.ones"),
  .assign "crdist" none, .assign "kl" none, .assign "kv" none, .assign "dt" none,
  .assign "dens" none, .assign "saved_ts" none, .assign "Sl" none,
  .assign "t1" none, .assign "t2" none, .assign "t3" none, .assign "aggr_factor" none]

/-- Cell: build initial channel belt object. -/
def cellBuildBelt : List PyStmt := [
  .assign "ch" (some "mp.Channel"),
  .assign "chb" (some "mp.ChannelBelt")]

/-- Cell: migrate the channel (T1). -/
def cellMigrateT1 : List PyStmt := [.exprCall "chb.migrate"]

/-- Cell: write the last pre-avulsion (T1) centerline to a shapefile. -/
def cellExportT1 : List PyStmt := [
  .assign "t1_final_x" (some "np.ndarray.copy"),
  .assign "t1_final_y" (some "np.ndarray.copy"),
  .assign "line_geometry" (some "LineString"),
  .assign "gdf_result" (some "gpd.GeoDataFrame"),
  .assign "output_shapefile_t1" none,
  .exprCall "gdf_result.to_file"]

/-- Cell: define model domain. -/
def cellDomain : List PyStmt := [
  .assign "min_x" none, .assign "max_x" none, .assign "min_y" none, .assign "max_y" none]

/-- Cell: build pre-avulsion 3-D fluvial model. -/
def cellBuild3dT1 : List PyStmt := [
  .assign "h_mud" (some "np.ones"),
  .assign "dx" none, .assign "diff_scale" none,
  .assign "v_coarse" none, .assign "v_fine" none,
  .assign "chb_3d_preAvulsion, xmin, xmax, ymin, ymax, dists, zmaps" (some "mp.build_3d_model")]

/-- Cell: import the initial post-avulsion (T2) centerline. -/
def cellLoadT2 : List PyStmt := [
  .assign "t2_shp" (some "gpd.read_file"),
  .assign "line" (some "pd.Series.iloc"),
  .assign "x, y" (some "line.xy"),
  .assign "z" (some "np.ones_like"),
  .assign "x, y, z" (some "mp.resample_centerline"),
  .assign "x" none,                        -- x = x - 560000
  .assign "y" none,                        -- y = y - 4300000
  .assign "window_size" none,
  .assign "order" none,
  .assign "x_smooth" (some "sp.signal.savgol_filter"),
  .assign "y_smooth" (some "sp.signal.savgol_filter"),
  .assign "x" none,
  .assign "y" none]

/-- Cell: plot the last centerline (QC plot). -/
def cellPlotNode : List PyStmt := [
  .assign "fix, ax" (some "plt.subplots"),
  .exprCall "ax.plot", .exprCall "ax.plot", .exprCall "ax.plot", .exprCall "ax.plot",
  .forLoop ["ax.text"],
  .exprCall "plt.legend", .exprCall "plt.axis"]

/-- Cell: define and then call `generate_z_coordinates_with_constant`. -/
def cellGenZ : List PyStmt := [
  .funcDef "generate_z_coordinates_with_constant",
  .assign "N" none,
  .assign "z" (some "generate_z_coordinates_with_constant")]

/-- Cell: plot all the different centerlines (QC plot). -/
def cellPlotAll : List PyStmt := [
  .assign "fix, ax" (some "plt.subplots"),
  .exprCall "ax.plot", .exprCall "ax.plot",
  .forLoop ["ax.plot", "ax.text"],
  .forLoop ["ax.plot", "ax.text"],
  .exprCall "ax.plot",
  .forLoop ["ax.plot", "ax.text"],
  .exprCall "plt.legend", .exprCall "plt.axis"]

/-- Cells: initialize and run the post-avulsion (T2) migration. -/
def cellMigrateT2 : List PyStmt := [
  .assign "ch2" (some "mp.Channel"),
  .exprCall "chb.channels.append",
  .exprCall "chb.migrate",
  .assign "fig" (some "chb.plot")]

/-- Cell: export final T2 centerline. -/
def cellExportT2 : List PyStmt := [
  .assign "t2_final_x" (some "np.ndarray.copy"),
  .assign "t2_final_y" (some "np.ndarray.copy"),
  .assign "line_geometry" (some "LineString"),
  .assign "gdf_result" (some "gpd.GeoDataFrame"),
  .assign "output_shapefile_t2" none,
  .exprCall "gdf_result.to_file"]

/-- Cell: plot all initial and final centerlines (QC plot). -/
def cellPlotQC : List PyStmt := [
  .assign "fix, ax" (some "plt.subplots"),
  .exprCall "ax.plot", .exprCall "ax.plot", .exprCall "ax.plot", .exprCall "ax.plot",
  .forLoop ["ax.plot", "ax.text"],
  .forLoop ["ax.plot", "ax.text"],
  .forLoop ["ax.plot", "ax.text"],
  .forLoop ["ax.plot", "ax.text"],
  .exprCall "plt.legend", .exprCall "plt.axis"]

/-- Cell: absolute min and max coordinates over all channels. -/
def cellMinMax : List PyStmt := [
  .assign "min_x" (some "min"), .assign "max_x" (some "max"),
  .assign "min_y" (some "min"), .assign "max_y" (some "max"),
  .forLoop ["min", "max"],
  .exprCall "print", .exprCall "print", .exprCall "print", .exprCall "print"]

/-- Cell: build post-avulsion 3-D fluvial model. -/
def cellBuild3dT2 : List PyStmt := [
  .assign "h_mud" (some "np.ones"),
  .assign "dx" none, .assign "diff_scale" none,
  .assign "v_coarse" none, .assign "v_fine" none,
  .assign "chb_3d_postAvulsion, xmin, xmax, ymin, ymax, dists, zmaps" (some "mp.build_3d_model")]

/-- Cells: mayavi import and camera settings. -/
def cellMayavi : List PyStmt := [
  .importLib "mayavi.mlab",
  .assign "azimuth" none, .assign "elevation" none, .assign "distance" none,
  .assign "focalpoint" (some "np.array")]

/-- Cells: pre-avulsion facies volume and block diagram. -/
def cellBlockT1 : List PyStmt := [
  .assign "facies3d" (some "np.zeros"),
  .forLoop [],
  .exprCall "mlab.figure", .exprCall "mlab.view",
  .assign "dx" none, .assign "ve" none, .assign "color_mode" none,
  .assign "bottom" (some "np.min"),
  .exprCall "sg.create_block_diagram"]

/-- Cells: post-avulsion facies volume and block diagram. -/
def cellBlockT2 : List PyStmt := [
  .assign "facies3d" (some "np.zeros"),
  .forLoop [],
  .exprCall "mlab.figure", .exprCall "mlab.view",
  .assign "dx" none, .assign "ve" none, .assign "color_mode" none,
  .assign "bottom" (some "np.min"),
  .exprCall "sg.create_block_diagram"]

/-- Cells: the three cookie sections through the stratigraphy. -/
def cellCookies : List PyStmt := [
  .assign "xcoords" none, .assign "ycoords" none,
  .assign "colors" none,
  .exprCall "mlab.figure",
  .exprCall "sg.create_random_cookie",
  .assign "xcoords" none, .assign "ycoords" none,
  .assign "colors" none,
  .exprCall "mlab.figure",
  .exprCall "sg.create_random_cookie",
  .assign "xcoords" none, .assign "ycoords" none,
  .assign "colors" none,
  .exprCall "mlab.figure",
  .exprCall "sg.create_random_cookie"]

def notebookProgram : List PyStmt :=
  cellImports ++ cellLoadT1 ++ cellParams ++ cellBuildBelt ++ cellMigrateT1 ++
  cellExportT1 ++ cellDomain ++ cellBuild3dT1 ++ cellLoadT2 ++ cellPlotNode ++
  cellGenZ ++ cellPlotAll ++ cellMigrateT2 ++ cellExportT2 ++ cellPlotQC ++
  cellMinMax ++ cellBuild3dT2 ++ cellMayavi ++ cellBlockT1 ++ cellBlockT2 ++
  cellCookies

/-!
## Sequential execution semantics

`execStmts` runs the transcribed statements in order.  Whether a given
library call fails is abstracted by an oracle `fails : String → Option
String` giving the error a callee raises, if any.  A raised error stops
execution immediately — except inside a `tryExcept`, whose handler catches
the body error.  `execTrace` is the list of calls actually performed, in
order.
-/

inductive ExecResult where
  | completed
  | raised (err : String)
deriving DecidableEq

/-- First error raised by a call sequence, if any. -/
def callSeq (fails : String → Option String) : List String → Option String
  | [] => none
  | c :: rest =>
    match fails c with
    | some e => some e
    | none => callSeq fails rest

def execStmts (fails : String → Option String) : List PyStmt → ExecResult
  | [] => .completed
  | .tryExcept body handler :: rest =>
    match callSeq fails body with
    | some _ =>
      match callSeq fails handler with
      | some e => .raised e
      | none => execStmts fails rest
    | none => execStmts fails rest
  | s :: rest =>
    match callSeq fails (calleesOf s) with
    | some e => .raised e
    | none => execStmts fails rest

/-- Calls performed by a call sequence, including the failing one. -/
def seqTrace (fails : String → Option String) : List String → List String
  | [] => []
  | c :: rest =>
    match fails c with
    | some _ => [c]
    | none => c :: seqTrace fails rest

def execTrace (fails : String → Option String) : List PyStmt → List String
  | [] => []
  | s :: rest =>
    match callSeq fails (calleesOf s) with
    | some _ => seqTrace fails (calleesOf s)
    | none => calleesOf s ++ execTrace fails rest

/-!
## Pipeline-stage trace

The seven stage kinds named by the spec, and the order in which their
occurrences appear in the notebook.  The T1 pass occupies the cells up to
the pre-avulsion `mp.build_3d_model` call; the T2 pass follows; the five
mayavi visualization cells (`sg.create_block_diagram` twice,
`sg.create_random_cookie` three times) come after both passes.
-/

inductive Stage where
  | loadShapefile
  | resampleSmoothCenterline
  | constructChannelObjects
  | runMigration
  | exportShapefile
  | build3dVolume
  | visualize3d
deriving DecidableEq

/-- Position of each stage in the linear sequence claimed by the spec. -/
def stageOrderIndex : Stage → ℕ
  | .loadShapefile => 0
  | .resampleSmoothCenterline => 1
  | .constructChannelObjects => 2
  | .runMigration => 3
  | .exportShapefile => 4
  | .build3dVolume => 5
  | .visualize3d => 6

/-- One pass of the load → resample/smooth → construct → migrate → export →
build-3D sequence. -/
def stagePass : List Stage :=
  [.loadShapefile, .resampleSmoothCenterline, .constructChannelObjects,
   .runMigration, .exportShapefile, .build3dVolume]

/-- The stage occurrences of the notebook in execution order: the full T1
pass, then the full T2 pass, then the five 3-D visualization cells. -/
def pipelineStageTrace : List Stage :=
  [.loadShapefile, .resampleSmoothCenterline, .constructChannelObjects,
   .runMigration, .exportShapefile, .build3dVolume,
   .loadShapefile, .resampleSmoothCenterline, .constructChannelObjects,
   .runMigration, .exportShapefile, .build3dVolume,
   .visualize3d, .visualize3d, .visualize3d, .visualize3d, .visualize3d]

/-- The ordering claim: no stage occurrence comes before an occurrence of a
stage that precedes it in the claimed linear sequence, i.e. the trace is
sorted by `stageOrderIndex`. -/
def stagesInClaimedLinearOrder (t : List Stage) : Prop :=
  List.Pairwise (fun a b => stageOrderIndex a ≤ stageOrderIndex b) t

/-!
## Numeric transformations of the geometric data

Every place where the notebook numerically transforms centerline or
stratigraphy data, with the library implementing it (`none` when the
arithmetic is written in the repository itself) and the kind of quantity
computed.
-/

inductive GeoQuantity where
  | elevation
  | migration
  | stratigraphy
  | rendering
  | resampling
  | smoothing
  | reordering
  | offsetTranslation
  | faciesReindex
deriving DecidableEq

structure NumericStep where
  name : String
  library : Option String
  quantity : GeoQuantity
deriving DecidableEq

def numericSteps : List NumericStep := [
  ⟨"mp.resample_centerline", some "meanderpy", .resampling⟩,
  ⟨"np.flip", some "numpy", .reordering⟩,
  ⟨"x - 560000, y - 4300000", none, .offsetTranslation⟩,
  ⟨"sp.signal.savgol_filter", some "scipy", .smoothing⟩,
  ⟨"chb.migrate", some "meanderpy", .migration⟩,
  ⟨"generate_z_coordinates_with_constant", none, .elevation⟩,
  ⟨"t1_final_x + 560000, t1_final_y + 4300000", none, .offsetTranslation⟩,
  ⟨"mp.build_3d_model", some "meanderpy", .stratigraphy⟩,
  ⟨"facies3d = facies - 1", none, .faciesReindex⟩,
  ⟨"sg.create_block_diagram", some "stratigraph", .rendering⟩,
  ⟨"sg.create_random_cookie", some "stratigraph", .rendering⟩]

/-- C1 as claimed: every numeric transformation is a call into an external
library; nothing is computed in-repository. -/
def claimC1AllNumericExternal : Prop :=
  ∀ s ∈ numericSteps, s.library ≠ none

/-!
## Argument-passing modes of the physical constants

The call sites where the physical constants of the claim (channel width
`W`, channel depth `D`/`depths`, friction factor `Cfs`, migration-rate
constant `kl`, time step `dt`, aggradation rate `aggr_factor`) are passed
to library functions, in source order, with the mode each constant is
passed by at that site.
-/

inductive ArgMode where
  | positional
  | keyword
deriving DecidableEq

structure PassedConstant where
  constName : String
  mode : ArgMode
deriving DecidableEq

structure ConstantCallSite where
  callee : String
  passed : List PassedConstant
deriving DecidableEq

def physicalConstantCallSites : List ConstantCallSite := [
  -- ch = mp.Channel(x, y, z, W, D)
  ⟨"mp.Channel", [⟨"W", .positional⟩, ⟨"D", .positional⟩]⟩,
  -- chb.migrate(nit, saved_ts, deltas, pad, crdist, depths, Cfs, kl, kv,
  --             dt, dens, t1, t2, t3, aggr_factor)
  ⟨"chb.migrate", [⟨"depths", .positional⟩, ⟨"Cfs", .positional⟩,
    ⟨"kl", .positional⟩, ⟨"dt", .positional⟩, ⟨"aggr_factor", .positional⟩]⟩,
  -- mp.build_3d_model(chb, ..., w=W, ..., dt=dt, ...)
  ⟨"mp.build_3d_model", [⟨"W", .keyword⟩, ⟨"dt", .keyword⟩]⟩,
  -- ch2 = mp.Channel(x, y, z, W, D)
  ⟨"mp.Channel", [⟨"W", .positional⟩, ⟨"D", .positional⟩]⟩,
  -- second chb.migrate, same argument list
  ⟨"chb.migrate", [⟨"depths", .positional⟩, ⟨"Cfs", .positional⟩,
    ⟨"kl", .positional⟩, ⟨"dt", .positional⟩, ⟨"aggr_factor", .positional⟩]⟩,
  -- second mp.build_3d_model, same keyword arguments
  ⟨"mp.build_3d_model", [⟨"W", .keyword⟩, ⟨"dt", .keyword⟩]⟩]

/-- C5 as claimed: every call site passes every physical constant
positionally. -/
def claimC5AllConstantsPositional : Prop :=
  ∀ cs ∈ physicalConstantCallSites, ∀ a ∈ cs.passed, a.mode = ArgMode.positional

/-!
## File inputs
-/

/-- The string literal assigned to `centerline_dir` in the notebook. -/
def centerline_dir : String := "../modeling/centerlines/"

structure ShapefileRead where
  path : String
  geometryIndexUsed : ℕ
deriving DecidableEq

/-- The two `gpd.read_file` calls of the notebook; each result is consumed
through `['geometry'].iloc[0]`, the first geometry of the file. -/
def shapefileReads : List ShapefileRead := [
  ⟨centerline_dir ++ "t1_initial_centerline.shp", 0⟩,
  ⟨centerline_dir ++ "t2_initial_centerline.shp", 0⟩]

/-!
## Channels, channel belts and shapefile export

The meanderpy `Channel` and `ChannelBelt` objects as used by the notebook
(coordinate arrays and the two scalars the notebook passes), and the export
cells, which take the last channel of the belt, add the UTM offsets back,
zip the coordinates into a single `LineString` and write a one-geometry
GeoDataFrame.
-/

structure Channel where
  x : List ℚ
  y : List ℚ
  z : List ℚ
  W : ℚ
  D : ℚ

structure ChannelBelt where
  channels : List Channel

/-- The offset subtracted from x after loading (`x = x-560000`) and added
back at export (`t1_final_x = chb.channels[-1].x.copy() + 560000`). -/
def utm_x_offset : ℚ := 560000

/-- The offset subtracted from y after loading (`y = y-4300000`) and added
back at export (`t1_final_y = chb.channels[-1].y.copy() + 4300000`). -/
def utm_y_offset : ℚ := 4300000

/-- The load-side translation into the working frame. -/
def subtractUTM (x y : List ℚ) : List ℚ × List ℚ :=
  (x.map (fun v => v - utm_x_offset), y.map (fun v => v - utm_y_offset))

/-- The export-side translation back into the UTM frame. -/
def addUTM (x y : List ℚ) : List ℚ × List ℚ :=
  (x.map (fun v => v + utm_x_offset), y.map (fun v => v + utm_y_offset))

structure LineStringGeom where
  coords : List (ℚ × ℚ)
deriving DecidableEq

/-- The geometry list written by one export cell: exactly one `LineString`
built from `zip` of the offset-restored coordinates of `chb.channels[-1]`.
`none` models the IndexError on an empty belt. -/
def exportFinalCenterline (chb : ChannelBelt) : Option (List LineStringGeom) :=
  match chb.channels.getLast? with
  | none => none
  | some ch => some [⟨List.zip ((addUTM ch.x ch.y).1) ((addUTM ch.x ch.y).2)⟩]

/-- When its argument is already inside the bounds, the Python clamp is the
identity. -/
lemma clampPy_eq_self {z ub lb : ℚ} (h1 : lb ≤ z) (h2 : z ≤ ub) :
    clampPy z ub lb = z := by
  unfold clampPy
  rw [min_eq_left h2, max_eq_left h1]

/-- The Python clamp always lands inside `[lb, ub]` when `lb ≤ ub`. -/
lemma clampPy_bounds (z lb ub : ℚ) (h1 : lb ≤ ub) :
    lb ≤ clampPy z ub lb ∧ clampPy z ub lb ≤ ub := by
  unfold clampPy
  constructor
  · exact le_max_right _ _
  · exact max_le (min_le_right _ _) h1

/-- Closed form of `generate_z_coordinates_with_constant` on the
well-defined domain `constant_values_count + 1 < len(x_coordinates)`. -/
lemma generate_z_eq (xs ys : List ℚ) (cnt : ℕ) (lb ub : ℚ)
    (h2 : cnt + 1 < xs.length) :
    generate_z_coordinates_with_constant xs ys cnt lb ub =
      some ((List.replicate cnt ub) ++
        (List.range (xs.length - cnt)).map (fun (j : ℕ) =>
          clampPy (ub - (j : ℚ) * ((ub - lb) / ((xs.length : ℚ) - (cnt : ℚ) - 1)))
            ub lb)) := by
  unfold generate_z_coordinates_with_constant
  rw [if_pos (by omega), if_neg (by omega), Nat.min_eq_left (by omega)]

lemma getD_map_range (m j : ℕ) (f : ℕ → ℚ) (h : j < m) :
    ((List.range m).map f).getD j 0 = f j := by
  rw [List.getD_eq_getElem?_getD, List.getElem?_map, List.getElem?_range h]
  rfl

lemma getD_replicate_append (cnt j : ℕ) (ub : ℚ) (L : List ℚ) :
    ((List.replicate cnt ub) ++ L).getD (cnt + j) 0 = L.getD j 0 := by
  rw [List.getD_eq_getElem?_getD,
    List.getElem?_append_right (by simp : (List.replicate cnt ub).length ≤ cnt + j)]
  simp [List.getD_eq_getElem?_getD]

lemma getD_replicate_lt (cnt i : ℕ) (ub : ℚ) (h : i < cnt) :
    (List.replicate cnt ub).getD i 0 = ub := by
  rw [List.getD_eq_getElem?_getD, List.getElem?_replicate]
  simp [h]

lemma cast_sub_sub (n cnt : ℕ) (h : cnt + 1 ≤ n) :
    ((n - cnt - 1 : ℕ) : ℚ) = (n : ℚ) - (cnt : ℚ) - 1 := by
  rw [Nat.cast_sub (by omega : 1 ≤ n - cnt), Nat.cast_sub (by omega : cnt ≤ n)]
  norm_num

/-- On the well-defined domain the ramp value at offset
`j ≤ n - cnt - 1` lies between the two bounds. -/
lemma ramp_bounds (n cnt j : ℕ) (lb ub : ℚ) (h1 : lb ≤ ub) (h2 : cnt + 1 < n)
    (hj : j ≤ n - cnt - 1) :
    lb ≤ ub - (j : ℚ) * ((ub - lb) / ((n : ℚ) - (cnt : ℚ) - 1)) ∧
    ub - (j : ℚ) * ((ub - lb) / ((n : ℚ) - (cnt : ℚ) - 1)) ≤ ub := by
  have hd : (0 : ℚ) < (n : ℚ) - (cnt : ℚ) - 1 := by
    have : (cnt : ℚ) + 1 < (n : ℚ) := by exact_mod_cast h2
    linarith
  set d : ℚ := (ub - lb) / ((n : ℚ) - (cnt : ℚ) - 1) with hdd
  have hd0 : 0 ≤ d := div_nonneg (by linarith) hd.le
  have hjQ : (j : ℚ) ≤ (n : ℚ) - (cnt : ℚ) - 1 := by
    have hle : (j : ℚ) ≤ ((n - cnt - 1 : ℕ) : ℚ) := by exact_mod_cast hj
    have hcast : ((n - cnt - 1 : ℕ) : ℚ) = (n : ℚ) - (cnt : ℚ) - 1 :=
      cast_sub_sub n cnt (by omega)
    linarith [hcast ▸ hle]
  constructor
  · have hmax : (j : ℚ) * d ≤ ((n : ℚ) - (cnt : ℚ) - 1) * d :=
      mul_le_mul_of_nonneg_right hjQ hd0
    have : ((n : ℚ) - (cnt : ℚ) - 1) * d = ub - lb := by
      rw [hdd, mul_div_cancel₀ _ hd.ne']
    linarith
  · have : 0 ≤ (j : ℚ) * d := mul_nonneg (by positivity) hd0
    linarith

lemma callSeq_eq_none_iff (fails : String → Option String) (cs : List String) :
    callSeq fails cs = none ↔ ∀ c ∈ cs, fails c = none := by
  induction cs with
  | nil => simp [callSeq]
  | cons c rest ih =>
    unfold callSeq
    cases h : fails c with
    | none => simp [h, ih]
    | some e => simp [h]

/-- For a statement list containing no `tryExcept`, execution completes
exactly when no contained call fails. -/
lemma execStmts_completed_iff (fails : String → Option String) (p : List PyStmt)
    (hp : p.all (fun s => !stmtIsTryExcept s) = true) :
    execStmts fails p = .completed ↔ ∀ c ∈ calledNames p, fails c = none := by
  induction p with
  | nil => simp [execStmts, calledNames]
  | cons s rest ih =>
    rw [List.all_cons, Bool.and_eq_true] at hp
    have hs := hp.1
    have hrest := ih hp.2
    cases s with
    | tryExcept body handler => simp [stmtIsTryExcept] at hs
    | importLib m =>
      simp only [execStmts, calledNames, calleesOf]
      simpa [callSeq] using hrest
    | assign t c =>
      cases c with
      | none =>
        simp only [execStmts, calledNames, calleesOf]
        simpa [callSeq] using hrest
      | some c =>
        simp only [execStmts, calledNames, calleesOf]
        cases h : fails c with
        | none => simpa [callSeq, h] using hrest
        | some e => simp [callSeq, h]
    | exprCall c =>
      simp only [execStmts, calledNames, calleesOf]
      cases h : fails c with
      | none => simpa [callSeq, h] using hrest
      | some e => simp [callSeq, h]
    | funcDef f =>
      simp only [execStmts, calledNames, calleesOf]
      simpa [callSeq] using hrest
    | forLoop body =>
      simp only [execStmts, calledNames, calleesOf]
      cases h : callSeq fails body with
      | none =>
        rw [callSeq_eq_none_iff] at h
        simp only [List.mem_append]
        constructor
        · intro hc c hmem
          rcases hmem with hmem | hmem
          · exact h c hmem
          · exact (hrest.1 hc) c hmem
        · intro hall
          exact hrest.2 (fun c hc => hall c (Or.inr hc))
      | some e =>
        simp only [List.mem_append]
        constructor
        · intro hc
          exact absurd hc (by simp)
        · intro hall
          exfalso
          have : callSeq fails body = none :=
            (callSeq_eq_none_iff fails body).2 (fun c hc => hall c (Or.inl hc))
          rw [this] at h
          exact Option.noConfusion h
    | spawnThread c =>
      simp only [execStmts, calledNames, calleesOf]
      cases h : fails c with
      | none => simpa [callSeq, h] using hrest
      | some e => simp [callSeq, h]

/-- A raised error always originates verbatim from some contained call:
no statement converts a failure into a default value. -/
lemma execStmts_raised_from_call (fails : String → Option String)
    (p : List PyStmt) (e : String) (h : execStmts fails p = .raised e) :
    ∃ c ∈ calledNames p, fails c = some e := by
  induction p with
  | nil => simp [execStmts] at h
  | cons s rest ih =>
    have hseq : ∀ (cs : List String) (e : String), callSeq fails cs = some e →
        ∃ c ∈ cs, fails c = some e := by
      intro cs
      induction cs with
      | nil => intro e h; simp [callSeq] at h
      | cons c cs ihc =>
        intro e h
        unfold callSeq at h
        cases hc : fails c with
        | some e0 =>
          rw [hc] at h
          exact ⟨c, by simp, by rw [hc, ← h]⟩
        | none =>
          rw [hc] at h
          obtain ⟨c1, hc1, hc2⟩ := ihc e h
          exact ⟨c1, by simp [hc1], hc2⟩
    cases s with
    | tryExcept body handler =>
      simp only [execStmts] at h
      cases hb : callSeq fails body with
      | none =>
        rw [hb] at h
        obtain ⟨c, hc1, hc2⟩ := ih h
        exact ⟨c, by simp [calledNames, hc1], hc2⟩
      | some e0 =>
        rw [hb] at h
        cases hh : callSeq fails handler with
        | none =>
          rw [hh] at h
          obtain ⟨c, hc1, hc2⟩ := ih h
          exact ⟨c, by simp [calledNames, hc1], hc2⟩
        | some e1 =>
          rw [hh] at h
          obtain ⟨c, hc1, hc2⟩ := hseq handler e1 hh
          refine ⟨c, by simp [calledNames, calleesOf, hc1], ?_⟩
          cases h
          exact hc2
    | importLib m =>
      simp only [execStmts, callSeq] at h
      obtain ⟨c, hc1, hc2⟩ := ih h
      exact ⟨c, by simp [calledNames, hc1], hc2⟩
    | assign t c =>
      cases c with
      | none =>
        simp only [execStmts, calleesOf, callSeq] at h
        obtain ⟨c, hc1, hc2⟩ := ih h
        exact ⟨c, by simp [calledNames, hc1], hc2⟩
      | some c0 =>
        simp only [execStmts, calleesOf] at h
        cases hc : callSeq fails [c0] with
        | none =>
          rw [hc] at h
          obtain ⟨c, hc1, hc2⟩ := ih h
          exact ⟨c, by simp [calledNames, hc1], hc2⟩
        | some e0 =>
          rw [hc] at h
          obtain ⟨c, hc1, hc2⟩ := hseq [c0] e0 hc
          refine ⟨c, by simp [calledNames, calleesOf]; simp at hc1; simp [hc1], ?_⟩
          cases h
          exact hc2
    | exprCall c0 =>
      simp only [execStmts, calleesOf] at h
      cases hc : callSeq fails [c0] with
      | none =>
        rw [hc] at h
        obtain ⟨c, hc1, hc2⟩ := ih h
        exact ⟨c, by simp [calledNames, hc1], hc2⟩
      | some e0 =>
        rw [hc] at h
        obtain ⟨c, hc1, hc2⟩ := hseq [c0] e0 hc
        refine ⟨c, by simp [calledNames, calleesOf]; simp at hc1; simp [hc1], ?_⟩
        cases h
        exact hc2
    | funcDef f =>
      simp only [execStmts, calleesOf, callSeq] at h
      obtain ⟨c, hc1, hc2⟩ := ih h
      exact ⟨c, by simp [calledNames, hc1], hc2⟩
    | forLoop body =>
      simp only [execStmts, calleesOf] at h
      cases hc : callSeq fails body with
      | none =>
        rw [hc] at h
        obtain ⟨c, hc1, hc2⟩ := ih h
        exact ⟨c, by simp [calledNames, hc1], hc2⟩
      | some e0 =>
        rw [hc] at h
        obtain ⟨c, hc1, hc2⟩ := hseq body e0 hc
        refine ⟨c, by simp [calledNames, calleesOf, hc1], ?_⟩
        cases h
        exact hc2
    | spawnThread c0 =>
      simp only [execStmts, calleesOf] at h
      cases hc : callSeq fails [c0] with
      | none =>
        rw [hc] at h
        obtain ⟨c, hc1, hc2⟩ := ih h
        exact ⟨c, by simp [calledNames, hc1], hc2⟩
      | some e0 =>
        rw [hc] at h
        obtain ⟨c, hc1, hc2⟩ := hseq [c0] e0 hc
        refine ⟨c, by simp [calledNames, calleesOf]; simp at hc1; simp [hc1], ?_⟩
        cases h
        exact hc2

/-- With no failing call, the executed calls are exactly the statically
listed calls, in source order. -/
lemma execTrace_no_failure (p : List PyStmt) :
    execTrace (fun _ => none) p = calledNames p := by
  induction p with
  | nil => rfl
  | cons s rest ih =>
    have hnone : callSeq (fun _ => none) (calleesOf s) = none :=
      (callSeq_eq_none_iff _ _).2 (fun _ _ => rfl)
    simp only [execTrace, hnone, calledNames, ih]

/-- **C7.**  For every call with `lower_bound ≤ upper_bound` and
`constant_values_count + 1 < len(x_coordinates)`,
`generate_z_coordinates_with_constant` returns an array of length
`len(x_coordinates)` whose first `constant_values_count` entries all equal
`upper_bound`, whose remaining entries follow the linear ramp
`upper_bound - j * (upper_bound - lower_bound) / (len - count - 1)` down to
`lower_bound` (the last entry equals `lower_bound`), and every entry lies in
the closed interval `[lower_bound, upper_bound]`. -/
theorem C7_generate_z_plateau_then_linear_ramp
    (xs ys : List ℚ) (cnt : ℕ) (lb ub : ℚ)
    (h1 : lb ≤ ub) (h2 : cnt + 1 < xs.length) :
    ∃ zs, generate_z_coordinates_with_constant xs ys cnt lb ub = some zs ∧
      zs.length = xs.length ∧
      (∀ i, i < cnt → zs.getD i 0 = ub) ∧
      (∀ j, j < xs.length - cnt →
        zs.getD (cnt + j) 0 =
          ub - (j : ℚ) * ((ub - lb) / ((xs.length : ℚ) - (cnt : ℚ) - 1))) ∧
      zs.getD (xs.length - 1) 0 = lb ∧
      (∀ z ∈ zs, lb ≤ z ∧ z ≤ ub) := by
  set n := xs.length with hn
  set d : ℚ := (ub - lb) / ((n : ℚ) - (cnt : ℚ) - 1) with hdd
  refine ⟨_, generate_z_eq xs ys cnt lb ub h2, ?_, ?_, ?_, ?_, ?_⟩
  · simp [← hn]
    omega
  · intro i hi
    rw [List.getD_append _ _ _ _ (by simp; omega)]
    exact getD_replicate_lt cnt i ub hi
  · intro j hj
    rw [getD_replicate_append, getD_map_range _ _ _ hj]
    exact clampPy_eq_self (ramp_bounds n cnt j lb ub h1 h2 (by omega)).1
      (ramp_bounds n cnt j lb ub h1 h2 (by omega)).2
  · have hidx : n - 1 = cnt + (n - cnt - 1) := by omega
    rw [hidx, getD_replicate_append, getD_map_range _ _ _ (by omega)]
    have hb := ramp_bounds n cnt (n - cnt - 1) lb ub h1 h2 (le_refl _)
    rw [clampPy_eq_self hb.1 hb.2]
    rw [cast_sub_sub n cnt (by omega)]
    have hd : (0 : ℚ) < (n : ℚ) - (cnt : ℚ) - 1 := by
      have : (cnt : ℚ) + 1 < (n : ℚ) := by exact_mod_cast h2
      linarith
    rw [mul_div_cancel₀ _ hd.ne']
    ring
  · intro z hz
    rcases List.mem_append.1 hz with hz | hz
    · rw [List.eq_of_mem_replicate hz]
      exact ⟨h1, le_refl _⟩
    · rcases List.mem_map.1 hz with ⟨j, _, rfl⟩
      exact clampPy_bounds _ lb ub h1

/-- Witness for C7 at the concrete call
`generate_z_coordinates_with_constant [0,0,0,0] [0,0,0,0] 1 0 3`. -/
theorem C7_generate_z_plateau_then_linear_ramp_witness :
    ∃ zs, generate_z_coordinates_with_constant
        ([0, 0, 0, 0] : List ℚ) ([0, 0, 0, 0] : List ℚ) 1 0 3 = some zs ∧
      zs.length = ([0, 0, 0, 0] : List ℚ).length ∧
      (∀ i, i < 1 → zs.getD i 0 = 3) ∧
      (∀ j, j < ([0, 0, 0, 0] : List ℚ).length - 1 →
        zs.getD (1 + j) 0 =
          3 - (j : ℚ) * ((3 - 0) / ((([0, 0, 0, 0] : List ℚ).length : ℚ) - (1 : ℚ) - 1))) ∧
      zs.getD (([0, 0, 0, 0] : List ℚ).length - 1) 0 = 0 ∧
      (∀ z ∈ zs, (0 : ℚ) ≤ z ∧ z ≤ 3) :=
  C7_generate_z_plateau_then_linear_ramp [0, 0, 0, 0] [0, 0, 0, 0] 1 0 3
    (by norm_num) (by decide)

/-- **C8.**  `generate_z_coordinates_with_constant` is partial at its
boundary.  When `constant_values_count ≥ len(x_coordinates)` the loop body
never executes, so the local `z_coords` is unbound at `return` and the call
fails (modelled `none`) instead of returning the constant-prefix array.
When `len(x_coordinates) = constant_values_count + 1` the interior divisor
`len(x_coordinates) - constant_values_count - 1` is zero, so the ramp
expression divides by zero and the call fails (modelled `none`). -/
theorem C8_generate_z_partial_at_boundary :
    (∀ (xs ys : List ℚ) (cnt : ℕ) (lb ub : ℚ), xs.length ≤ cnt →
      generate_z_coordinates_with_constant xs ys cnt lb ub = none) ∧
    (∀ (xs ys : List ℚ) (cnt : ℕ) (lb ub : ℚ), xs.length = cnt + 1 →
      ((xs.length : ℤ) - (cnt : ℤ) - 1 = 0 ∧
        generate_z_coordinates_with_constant xs ys cnt lb ub = none)) := by
  constructor
  · intro xs ys cnt lb ub h
    unfold generate_z_coordinates_with_constant
    rw [if_neg (by omega)]
  · intro xs ys cnt lb ub h
    refine ⟨by omega, ?_⟩
    unfold generate_z_coordinates_with_constant
    rw [if_pos (by omega), if_pos (by omega)]

/-- Witness for C8: concrete calls on both failure boundaries
(`len = 2 ≤ cnt = 3`, and `len = 2 = cnt + 1` with `cnt = 1`). -/
theorem C8_generate_z_partial_at_boundary_witness :
    generate_z_coordinates_with_constant ([0, 1] : List ℚ) [0, 1] 3 0 1 = none ∧
    (((([0, 1] : List ℚ).length : ℤ) - (1 : ℤ) - 1 = 0) ∧
      generate_z_coordinates_with_constant ([0, 1] : List ℚ) [0, 1] 1 0 1 = none) :=
  ⟨C8_generate_z_partial_at_boundary.1 [0, 1] [0, 1] 3 0 1 (by decide),
   C8_generate_z_partial_at_boundary.2 [0, 1] [0, 1] 1 0 1 (by decide)⟩

/-- **C9.**  For every call with `lower_bound ≤ upper_bound` and
`constant_values_count + 1 < len(x_coordinates)`, the returned array is
monotonically non-increasing: each entry is at most the entry before it
(constant plateau followed by a descending ramp). -/
theorem C9_generate_z_monotone_nonincreasing
    (xs ys : List ℚ) (cnt : ℕ) (lb ub : ℚ)
    (h1 : lb ≤ ub) (h2 : cnt + 1 < xs.length) :
    ∃ zs, generate_z_coordinates_with_constant xs ys cnt lb ub = some zs ∧
      ∀ i, i + 1 < zs.length → zs.getD (i + 1) 0 ≤ zs.getD i 0 := by
  set n := xs.length with hn
  refine ⟨_, generate_z_eq xs ys cnt lb ub h2, ?_⟩
  intro i hi
  have hlen : (List.replicate cnt ub ++ (List.range (n - cnt)).map (fun (j : ℕ) =>
      clampPy (ub - (j : ℚ) * ((ub - lb) / ((n : ℚ) - (cnt : ℚ) - 1))) ub lb)).length
      = n := by
    simp
    omega
  rw [hlen] at hi
  have hd : (0 : ℚ) < (n : ℚ) - (cnt : ℚ) - 1 := by
    have : (cnt : ℚ) + 1 < (n : ℚ) := by exact_mod_cast h2
    linarith
  have hd0 : 0 ≤ (ub - lb) / ((n : ℚ) - (cnt : ℚ) - 1) := div_nonneg (by linarith) hd.le
  rcases lt_trichotomy (i + 1) cnt with hcase | hcase | hcase
  · rw [List.getD_append _ _ _ _ (by simp; omega), List.getD_append _ _ _ _ (by simp; omega),
      getD_replicate_lt cnt _ ub hcase, getD_replicate_lt cnt i ub (by omega)]
  · have heq : cnt + 0 = i + 1 := by omega
    rw [← heq, getD_replicate_append, getD_map_range _ _ _ (by omega)]
    rw [List.getD_append _ _ _ _ (by simp; omega), getD_replicate_lt cnt i ub (by omega)]
    have hb := ramp_bounds n cnt 0 lb ub h1 h2 (by omega)
    rw [clampPy_eq_self hb.1 hb.2]
    simp
  · obtain ⟨k, rfl⟩ : ∃ k, i = cnt + k := ⟨i - cnt, by omega⟩
    have e2 : cnt + k + 1 = cnt + (k + 1) := by omega
    rw [e2, getD_replicate_append, getD_map_range _ _ _ (by omega)]
    rw [getD_replicate_append, getD_map_range _ _ _ (by omega)]
    have hb1 := ramp_bounds n cnt (k + 1) lb ub h1 h2 (by omega)
    have hb2 := ramp_bounds n cnt k lb ub h1 h2 (by omega)
    rw [clampPy_eq_self hb1.1 hb1.2, clampPy_eq_self hb2.1 hb2.2]
    have hle : ((k : ℕ) : ℚ) ≤ ((k + 1 : ℕ) : ℚ) := by exact_mod_cast Nat.le_succ _
    push_cast at hle ⊢
    nlinarith [mul_le_mul_of_nonneg_right hle hd0]

/-- Witness for C9 at the concrete call
`generate_z_coordinates_with_constant [0,0,0,0] [0,0,0,0] 1 0 3`. -/
theorem C9_generate_z_monotone_nonincreasing_witness :
    ∃ zs, generate_z_coordinates_with_constant
        ([0, 0, 0, 0] : List ℚ) ([0, 0, 0, 0] : List ℚ) 1 0 3 = some zs ∧
      ∀ i, i + 1 < zs.length → zs.getD (i + 1) 0 ≤ zs.getD i 0 :=
  C9_generate_z_monotone_nonincreasing [0, 0, 0, 0] [0, 0, 0, 0] 1 0 3
    (by norm_num) (by decide)


/-- **C1 (counterexample).**  The claim that every numeric transformation
of the geometric data is a call into an external library is false: the
repository itself defines `generate_z_coordinates_with_constant`, an
in-repository function that computes elevation (z) values, and it produces
values (here `3/2`) that appear in none of its inputs. -/
theorem C1_counterexample_in_repo_elevation :
    ¬ claimC1AllNumericExternal ∧
    (⟨"generate_z_coordinates_with_constant", none, .elevation⟩ : NumericStep)
      ∈ numericSteps ∧
    generate_z_coordinates_with_constant [0, 0, 0, 0] [0, 0, 0, 0] 1 0 3 =
      some [3, 3, 3/2, 0] := by
  refine ⟨?_, by decide, ?_⟩
  · intro h
    exact h ⟨"generate_z_coordinates_with_constant", none, .elevation⟩ (by decide) rfl
  · simp [generate_z_coordinates_with_constant, clampPy, List.range_succ]
    norm_num

/-- **C1 (amended).**  The centerline migration, stratigraphy construction,
3-D rendering, resampling and smoothing are all delegated to external
libraries; the only in-repository computation of elevation values is the
function `generate_z_coordinates_with_constant` (the remaining
in-repository arithmetic being the UTM offset translation and the facies
re-indexing). -/
theorem C1_amended_external_except_generate_z :
    (∀ s ∈ numericSteps,
      (s.quantity = .migration ∨ s.quantity = .stratigraphy ∨
       s.quantity = .rendering ∨ s.quantity = .resampling ∨
       s.quantity = .smoothing) → s.library ≠ none) ∧
    (∀ s ∈ numericSteps, s.library = none →
      s.quantity = .elevation ∨ s.quantity = .offsetTranslation ∨
      s.quantity = .faciesReindex) ∧
    (∀ s ∈ numericSteps, s.library = none → s.quantity = .elevation →
      s.name = "generate_z_coordinates_with_constant") := by
  decide

/-- Witness for the amended C1 at the migration step. -/
theorem C1_amended_external_except_generate_z_witness :
    (⟨"chb.migrate", some "meanderpy", .migration⟩ : NumericStep).library ≠ none :=
  C1_amended_external_except_generate_z.1
    ⟨"chb.migrate", some "meanderpy", .migration⟩ (by decide) (by decide)

/-- **C2 (counterexample).**  The stage occurrences of the notebook are not
sorted by the claimed linear order: the T2 `loadShapefile` occurrence runs
after the T1 `build3dVolume` occurrence. -/
theorem C2_counterexample_trace_not_linear :
    ¬ stagesInClaimedLinearOrder pipelineStageTrace ∧
    pipelineStageTrace.getD 5 .loadShapefile = .build3dVolume ∧
    pipelineStageTrace.getD 6 .build3dVolume = .loadShapefile := by
  refine ⟨?_, rfl, rfl⟩
  unfold stagesInClaimedLinearOrder
  decide

/-- **C2 (amended).**  The notebook executes the load → resample/smooth →
construct → migrate → export → build-3D sequence twice (the pre-avulsion T1
pass, then the post-avulsion T2 pass), with all 3-D visualization after
both passes; within one pass followed by the visualizations the stages run
in the claimed linear order. -/
theorem C2_two_passes_then_visualization :
    pipelineStageTrace = stagePass ++ stagePass ++ List.replicate 5 Stage.visualize3d ∧
    stagesInClaimedLinearOrder (stagePass ++ List.replicate 5 Stage.visualize3d) := by
  refine ⟨rfl, ?_⟩
  unfold stagesInClaimedLinearOrder
  decide

/-- **C3.**  Each export cell writes exactly one LineString geometry whose
coordinates are the x and y coordinates of the last channel of the belt
(`chb.channels[-1]`) with the same UTM offsets (560000 in x, 4300000 in y)
added back that the load cells subtracted, so exporting inverts the offset
translation applied to the input. -/
theorem C3_export_restores_utm_frame (chb : ChannelBelt) (ch : Channel)
    (h : chb.channels.getLast? = some ch) :
    exportFinalCenterline chb =
      some [⟨List.zip (ch.x.map (fun v => v + utm_x_offset))
                      (ch.y.map (fun v => v + utm_y_offset))⟩] ∧
    (∀ xs ys : List ℚ, addUTM (subtractUTM xs ys).1 (subtractUTM xs ys).2 = (xs, ys)) := by
  constructor
  · unfold exportFinalCenterline addUTM
    rw [h]
  · intro xs ys
    have hmap : ∀ (off : ℚ) (l : List ℚ),
        (l.map (fun v => v - off)).map (fun v => v + off) = l := by
      intro off l
      rw [List.map_map]
      have hid : ((fun v => v + off) ∘ fun v : ℚ => v - off) = id := by
        funext v
        simp
      rw [hid, List.map_id]
    unfold addUTM subtractUTM
    simp only
    rw [hmap, hmap]

/-- Witness for C3 on a one-channel belt. -/
theorem C3_export_restores_utm_frame_witness :
    exportFinalCenterline ⟨[⟨[1], [2], [1], 50, 2⟩]⟩ =
      some [⟨List.zip (([1] : List ℚ).map (fun v => v + utm_x_offset))
                      (([2] : List ℚ).map (fun v => v + utm_y_offset))⟩] ∧
    (∀ xs ys : List ℚ, addUTM (subtractUTM xs ys).1 (subtractUTM xs ys).2 = (xs, ys)) :=
  C3_export_restores_utm_frame ⟨[⟨[1], [2], [1], 50, 2⟩]⟩ ⟨[1], [2], [1], 50, 2⟩ rfl

/-- **C4.**  The notebook contains no exception-handling construct, a run
completes exactly when no contained call fails, and any raised error is the
verbatim error of some contained call — no failure is caught, retried, or
converted to a default value. -/
theorem C4_errors_propagate_unhandled :
    notebookProgram.all (fun s => !stmtIsTryExcept s) = true ∧
    (∀ fails, execStmts fails notebookProgram = ExecResult.completed ↔
      ∀ c ∈ calledNames notebookProgram, fails c = none) ∧
    (∀ fails e, execStmts fails notebookProgram = ExecResult.raised e →
      ∃ c ∈ calledNames notebookProgram, fails c = some e) := by
  refine ⟨by decide, ?_, ?_⟩
  · intro fails
    exact execStmts_completed_iff fails notebookProgram (by decide)
  · intro fails e h
    exact execStmts_raised_from_call fails notebookProgram e h

/-- Witness for C4: with no failing call the whole notebook completes. -/
theorem C4_errors_propagate_unhandled_witness :
    execStmts (fun _ => none) notebookProgram = ExecResult.completed :=
  (C4_errors_propagate_unhandled.2.1 (fun _ => none)).mpr (fun _ _ => rfl)

/-- **C5 (counterexample).**  Not every physical constant is passed
positionally: both `mp.build_3d_model` call sites receive the channel width
(`w=W`) and the time step (`dt=dt`) as keyword arguments. -/
theorem C5_counterexample_build3d_keyword_args :
    ¬ claimC5AllConstantsPositional ∧
    (⟨"mp.build_3d_model", [⟨"W", .keyword⟩, ⟨"dt", .keyword⟩]⟩ : ConstantCallSite)
      ∈ physicalConstantCallSites := by
  refine ⟨?_, by decide⟩
  intro h
  have := h ⟨"mp.build_3d_model", [⟨"W", .keyword⟩, ⟨"dt", .keyword⟩]⟩ (by decide)
    ⟨"W", .keyword⟩ (by decide)
  exact absurd this (by decide)

/-- **C5 (amended).**  Every call site other than `mp.build_3d_model`
passes the physical constants positionally; the two `mp.build_3d_model`
call sites pass the channel width and the time step as keyword arguments. -/
theorem C5_positional_except_build3d :
    (∀ cs ∈ physicalConstantCallSites, cs.callee ≠ "mp.build_3d_model" →
      ∀ a ∈ cs.passed, a.mode = ArgMode.positional) ∧
    (∀ cs ∈ physicalConstantCallSites, cs.callee = "mp.build_3d_model" →
      cs.passed = [⟨"W", .keyword⟩, ⟨"dt", .keyword⟩]) := by
  decide

/-- Witness for the amended C5 at the first `mp.Channel` call site. -/
theorem C5_positional_except_build3d_witness :
    (⟨"W", ArgMode.positional⟩ : PassedConstant).mode = ArgMode.positional :=
  C5_positional_except_build3d.1
    ⟨"mp.Channel", [⟨"W", .positional⟩, ⟨"D", .positional⟩]⟩ (by decide)
    (by decide) ⟨"W", ArgMode.positional⟩ (by decide)

/-- **C6.**  The only file inputs are the two shapefile reads, at paths
built from the relative directory `../modeling/centerlines/`; the
transcribed notebook contains exactly two `gpd.read_file` calls, and each
read consumes only the first geometry of its file. -/
theorem C6_two_relative_reads_first_geometry_only :
    shapefileReads = [⟨"../modeling/centerlines/t1_initial_centerline.shp", 0⟩,
      ⟨"../modeling/centerlines/t2_initial_centerline.shp", 0⟩] ∧
    (calledNames notebookProgram).count "gpd.read_file" = 2 ∧
    shapefileReads.all (fun r => r.geometryIndexUsed == 0) = true := by
  refine ⟨rfl, by decide, rfl⟩

/-- **C10.**  The transcribed notebook contains no thread- or task-spawning
construct, and its execution is one sequential pass: the calls performed
are exactly the statically listed calls, in source order. -/
theorem C10_single_threaded_sequential :
    notebookProgram.all (fun s => !stmtIsSpawn s) = true ∧
    execTrace (fun _ => none) notebookProgram = calledNames notebookProgram :=
  ⟨by decide, execTrace_no_failure notebookProgram⟩


end Avulsion
